import Mathlib

/-!
Shallow embedding of the authentication core of the tanstack-start auth
example: password hashing (`app/utils/prisma.ts`), the login / signup
server functions, the session accessors `fetchSessionUser` and
`getCurrentUser`, and the `/_authed` route guard.  The repository carries
two coexisting variants of the auth route file: the current one, whose
server functions are built with a schema validator and return result
flags, and a legacy one, whose server functions receive the raw payload
and throw redirects on success.  Both are embedded; definitions with a
`3` suffix come from the legacy variant.

External collaborators (the PBKDF2 primitive of node:crypto, the zod
email format check) are parameters of the embedding; everything the
repository itself does - the fixed salt / iteration / key-length /
algorithm arguments, hex rendering, lookup order, result objects,
session writes - is concrete.
-/

namespace TanstackAuth

/-- A persisted user row: the `User` table keyed by unique email with
columns `password` (digest), `role` (default `"user"`), `first_name`,
`last_name`; the code additionally reads a store-generated `id`. -/
structure User where
  id : Nat
  email : String
  password : String
  role : String
  first_name : String
  last_name : String
deriving DecidableEq, Repr

/-- The session blob written at login / signup: `{email, role, id}`
(type `SessionUser` in `session.server.ts`). -/
structure SessionUser where
  email : String
  role : String
  id : Nat
deriving DecidableEq, Repr

/-- The two external stores an auth request touches: the persistent
user table and the per-client session (empty when no session data has
been written). -/
structure AppState where
  users : List User
  session : Option SessionUser
deriving DecidableEq, Repr

/-- `prismaClient.user.findUnique({ where: { email } })`. -/
def findByEmail (users : List User) (email : String) : Option User :=
  users.find? (fun u => u.email == email)

/-! ## Password hasher (`app/utils/prisma.ts`) -/

/-- The external key-derivation primitive `crypto.pbkdf2`:
password, salt, iterations, key length, digest algorithm, producing raw
key bytes. -/
def KDF : Type := String → String → Nat → Nat → String → List Nat

/-- One byte rendered as two lowercase hex digits. -/
def hexDigit (n : Nat) : Char :=
  if n < 10 then Char.ofNat (48 + n) else Char.ofNat (97 + (n - 10))

/-- Hex rendering of one byte. -/
def hexByte (b : Nat) : List Char := [hexDigit (b / 16 % 16), hexDigit (b % 16)]

/-- `derivedKey.toString(\x27hex\x27)`: bytes rendered as a hex string. -/
def hexOfBytes (bs : List Nat) : String := String.mk (bs.map hexByte).flatten

/-- `hashPassword` from `app/utils/prisma.ts`: PBKDF2 over the given
primitive with the fixed salt `"salt"`, 100000 iterations, a 64-byte key
and SHA-256, rendered as hex. -/
def hashPassword (kdf : KDF) (password : String) : String :=
  hexOfBytes (kdf password "salt" 100000 64 "sha256")

/-! ## Zod signup schema -/

/-- One entry of `result.error.issues` as zod reports it. -/
structure ZodIssue where
  code : String
  path : List String
  message : String
deriving DecidableEq, Repr

/-- The signup payload of the legacy variant:
`{email, password, first_name, last_name, redirectUrl?}`. -/
structure SignupPayload where
  email : String
  password : String
  first_name : String
  last_name : String
  redirectUrl : Option String
deriving DecidableEq, Repr

/-- The issue list `signupSchema.safeParse` reports, keyed on the zod
checks the schema declares: `email: z.string().email()` (the email
format check itself lives in zod and is a parameter), `password:
z.string().min(6)`, `first_name: z.string().min(1)`, `last_name:
z.string().min(1)`, `redirectUrl: z.string().optional()` (never an
issue).  Parsing succeeds exactly when this list is empty. -/
def signupIssues (emailOk : String → Bool) (p : SignupPayload) : List ZodIssue :=
  (if emailOk p.email then [] else
    [⟨"invalid_string", ["email"], "Invalid email"⟩]) ++
  (if p.password.length ≥ 6 then [] else
    [⟨"too_small", ["password"], "String must contain at least 6 character(s)"⟩]) ++
  (if p.first_name.length ≥ 1 then [] else
    [⟨"too_small", ["first_name"], "String must contain at least 1 character(s)"⟩]) ++
  (if p.last_name.length ≥ 1 then [] else
    [⟨"too_small", ["last_name"], "String must contain at least 1 character(s)"⟩])

/-- The issue list of `signinSchema` (`email: z.string().email()`,
`password: z.string().min(6)`), validated by `.validator(signinSchema)`
before the current `loginFn` handler runs. -/
def signinIssues (emailOk : String → Bool) (email password : String) : List ZodIssue :=
  (if emailOk email then [] else
    [⟨"invalid_string", ["email"], "Invalid email"⟩]) ++
  (if password.length ≥ 6 then [] else
    [⟨"too_small", ["password"], "String must contain at least 6 character(s)"⟩])

/-! ## Login -/

/-- The result object of the current `loginFn`: every branch fills
`error`, `userNotFound` and `message`. -/
structure LoginResult where
  error : Bool
  userNotFound : Bool
  message : String
deriving DecidableEq, Repr

/-- The current `loginFn` handler body: look the user up by email;
absent -> user-not-found result; digest mismatch -> incorrect-password
result (also tagged `userNotFound: true` in this variant); match ->
write `{email, role, id}` of the found user into the session and
return the logged-in result. -/
def loginHandler (kdf : KDF) (st : AppState) (email password : String) :
    LoginResult × AppState :=
  match findByEmail st.users email with
  | none => (⟨true, true, "User not found"⟩, st)
  | some found =>
    let hashedPassword := hashPassword kdf password
    if found.password ≠ hashedPassword then
      (⟨true, true, "Incorrect password"⟩, st)
    else
      (⟨false, false, "Logged in"⟩,
        { st with session := some ⟨found.email, found.role, found.id⟩ })

/-- What the whole current `loginFn` server function produces: a thrown
schema validation error from `.validator(signinSchema)` (the handler
never runs, nothing is written), or the handler result. -/
inductive LoginOutcome where
  | invalid (issues : List ZodIssue)
  | ret (r : LoginResult)
deriving DecidableEq, Repr

/-- The current `loginFn` server function:
`createServerFn({method: "POST"}).validator(signinSchema).handler(...)`.
A schema-invalid input is rejected by the validator with a thrown
validation error before the handler runs; a schema-valid input reaches
the handler. -/
def loginFn (emailOk : String → Bool) (kdf : KDF) (st : AppState)
    (email password : String) : LoginOutcome × AppState :=
  let issues := signinIssues emailOk email password
  if issues.isEmpty then
    let hr := loginHandler kdf st email password
    (.ret hr.1, hr.2)
  else (.invalid issues, st)

/-- What a legacy server function hands back to the framework: a
returned result object, or a thrown `redirect({to, statusCode})`. -/
inductive Login3Outcome where
  | ret (error : Bool) (userNotFound : Option Bool) (message : String)
  | redirect (dest : String) (statusCode : Nat)
deriving DecidableEq, Repr

/-- The legacy `loginFn`: same lookup and digest comparison, but the
incorrect-password result carries no `userNotFound` field and success
throws `redirect({to: "/home", statusCode: 301})` after the same
session write instead of returning a result. -/
def loginFn3 (kdf : KDF) (st : AppState) (email password : String) :
    Login3Outcome × AppState :=
  match findByEmail st.users email with
  | none => (.ret true (some true) "User not found", st)
  | some found =>
    let hashedPassword := hashPassword kdf password
    if found.password ≠ hashedPassword then
      (.ret true none "Incorrect password", st)
    else
      (.redirect "/home" 301,
        { st with session := some ⟨found.email, found.role, found.id⟩ })

/-! ## Signup -/

/-- A signup result object; `userExists` and `issues` are only present
on some branches. -/
structure SignupResult where
  error : Bool
  userExists : Option Bool
  message : String
  issues : Option (List ZodIssue)
deriving DecidableEq, Repr

/-- JavaScript `a || b` on strings: the fallback is taken when the
string is empty. -/
def jsOrStr (a b : String) : String := if a = "" then b else a

/-- JavaScript `a || b` on an optional string: the fallback is taken
when the value is missing or the empty string. -/
def jsOrOpt (a : Option String) (b : String) : String :=
  match a with
  | none => b
  | some s => if s = "" then b else s

/-- The current `signupFn` handler body (receives the validated data):
look the email up; found -> user-exists result with no writes;
otherwise hash the password, create the user (role defaulted to
`"user"` by the table), write `{email, role, id}` into the session and
return the success result.  `newId` is the store-generated id of the
created row. -/
def signupHandler (kdf : KDF) (newId : Nat) (st : AppState)
    (email password first_name last_name : String) : SignupResult × AppState :=
  match findByEmail st.users email with
  | some _ => (⟨true, some true, "User already exists", none⟩, st)
  | none =>
    let hashedPassword := hashPassword kdf password
    let user : User := ⟨newId, email, hashedPassword, "user", first_name, last_name⟩
    (⟨false, none, "user created", none⟩,
      ⟨st.users ++ [user], some ⟨email, jsOrStr user.role "user", user.id⟩⟩)

/-- What the whole current `signupFn` server function produces: a
thrown schema validation error from `.validator(signupSchema)` (the
handler never runs, nothing is written), or the handler result. -/
inductive SignupOutcome where
  | invalid (issues : List ZodIssue)
  | ret (r : SignupResult)
deriving DecidableEq, Repr

/-- The current `signupFn` server function:
`createServerFn({method: "POST"}).validator(signupSchema).handler(...)`.
A schema-invalid payload is rejected by the validator with a thrown
validation error before the handler runs - in particular before the
user-store lookup; a schema-valid payload reaches the handler. -/
def signupFn (emailOk : String → Bool) (kdf : KDF) (newId : Nat)
    (st : AppState) (p : SignupPayload) : SignupOutcome × AppState :=
  let issues := signupIssues emailOk p
  if issues.isEmpty then
    let hr := signupHandler kdf newId st p.email p.password p.first_name p.last_name
    (.ret hr.1, hr.2)
  else (.invalid issues, st)

/-- Outcome of the legacy `signupFn`: a returned result object or a
thrown redirect. -/
inductive Signup3Outcome where
  | ret (r : SignupResult)
  | redirect (dest : String) (statusCode : Nat)
deriving DecidableEq, Repr

/-- The legacy `signupFn`: it looks the email up FIRST and only then
runs `signupSchema.safeParse` on the payload; a found email returns the
user-exists result, a failed parse returns the invalid-input result
with the issue list, and success creates the user, writes the session
and throws `redirect({to: payload.redirectUrl || "/", statusCode: 301})`. -/
def signupFn3 (emailOk : String → Bool) (kdf : KDF) (newId : Nat)
    (st : AppState) (p : SignupPayload) : Signup3Outcome × AppState :=
  match findByEmail st.users p.email with
  | some _ => (.ret ⟨true, some true, "User already exists", none⟩, st)
  | none =>
    let issues := signupIssues emailOk p
    if issues.isEmpty then
      let hashedPassword := hashPassword kdf p.password
      let user : User := ⟨newId, p.email, hashedPassword, "user", p.first_name, p.last_name⟩
      (.redirect (jsOrOpt p.redirectUrl "/") 301,
        ⟨st.users ++ [user], some ⟨p.email, jsOrStr user.role "user", user.id⟩⟩)
    else
      (.ret ⟨true, none, "Invalid input", some issues⟩, st)

/-! ## Session accessors -/

/-- `fetchSessionUser`: read the session; `!session.data.email` (no
session data, or an empty email) yields null, otherwise the session
data is returned as-is. -/
def fetchSessionUser (session : Option SessionUser) : Option SessionUser :=
  match session with
  | none => none
  | some sd => if sd.email = "" then none else some sd

/-- The projection `getCurrentUser` selects from the user row:
`{id, email, role, first_name, last_name}` - there is no password
field. -/
structure UserProjection where
  id : Nat
  email : String
  role : String
  first_name : String
  last_name : String
deriving DecidableEq, Repr

/-- The select clause of `getCurrentUser`. -/
def projectUser (u : User) : UserProjection :=
  ⟨u.id, u.email, u.role, u.first_name, u.last_name⟩

/-- Outcome of `getCurrentUser`: a thrown error, or the (possibly null)
projected user row. -/
inductive GetUserOutcome where
  | threw (message : String)
  | ok (user : Option UserProjection)
deriving DecidableEq, Repr

/-- `getCurrentUser`: `!session.data.email` throws
`Error("Not authenticated")`; otherwise the user row is re-fetched by
the session email and returned through the projection (null when no
row matches). -/
def getCurrentUser (st : AppState) : GetUserOutcome :=
  match st.session with
  | none => .threw "Not authenticated"
  | some sd =>
    if sd.email = "" then .threw "Not authenticated"
    else .ok ((findByEmail st.users sd.email).map projectUser)

/-! ## The `/_authed` route guard -/

/-- What `beforeLoad` of the `/_authed` route produces: a redirect, or
fall-through to rendering. -/
inductive BeforeLoadResult where
  | redirect (dest : String) (statusCode : Nat)
  | proceed
deriving DecidableEq, Repr

/-- `beforeLoad` of `/_authed`: `!context.user` redirects to `/` with
status 301; otherwise the route proceeds. -/
def authedBeforeLoad (contextUser : Option SessionUser) : BeforeLoadResult :=
  match contextUser with
  | none => .redirect "/" 301
  | some _ => .proceed

/-- What route preparation renders for a protected route. -/
inductive RouteRender where
  | redirected (dest : String) (statusCode : Nat)
  | protectedView
deriving DecidableEq, Repr

/-- Route preparation under `/_authed`: the redirect short-circuits the
protected view, otherwise the protected view renders. -/
def renderAuthed (contextUser : Option SessionUser) : RouteRender :=
  match authedBeforeLoad contextUser with
  | .redirect dest code => .redirected dest code
  | .proceed => .protectedView

/-- What `errorComponent` of `/_authed` renders for a raised error. -/
inductive ErrorRender where
  | loginForm
  | rethrown (message : String)
deriving DecidableEq, Repr

/-- `errorComponent` of `/_authed`: the error message
`"Not authenticated"` renders the `Login` component; any other error is
re-thrown to the outer error boundary. -/
def authedErrorComponent (message : String) : ErrorRender :=
  if message = "Not authenticated" then .loginForm else .rethrown message

/-! ## Concrete instances used by witnesses and counterexamples -/

/-- A concrete stand-in for the external PBKDF2 primitive: the derived
key has the requested length and depends on the password length, so
different-length passwords get different digests. -/
def kdfLen : KDF := fun p _ _ len _ => List.replicate len (p.length % 256)

/-- An email format check accepting everything (the zod check is a
parameter of the embedding; the concrete payloads below use
syntactically well-formed emails). -/
def emailAny : String → Bool := fun _ => true

/-- The seeded admin row (`prisma/seed.ts` creates
`admin@example.com` / `adminpassword` with role `admin`). -/
def seededUser : User :=
  ⟨1, "admin@example.com", hashPassword kdfLen "adminpassword", "admin",
    "Admin", "User"⟩

/-- A store holding the seeded admin and an empty session. -/
def seededState : AppState := ⟨[seededUser], none⟩

/-! ## Helper lemmas -/

/-- Hex rendering doubles the byte count. -/
theorem hexOfBytes_length (bs : List Nat) : (hexOfBytes bs).length = 2 * bs.length := by
  induction bs with
  | nil => rfl
  | cons b t ih =>
    simp only [hexOfBytes, String.length, List.map_cons, List.flatten_cons,
      hexByte] at ih ⊢
    simp only [List.length_append, List.length_cons, List.length_nil] at ih ⊢
    omega

/-! ## Claim theorems -/

/-- C6: for every plaintext password, any two calls of `hashPassword`
on it yield the identical digest; the key derivation is invoked with
the fixed salt `"salt"`, the fixed iteration count 100000 and the fixed
algorithm `"sha256"`, and when the primitive honours the requested
64-byte key length the rendered hex output has the fixed length 128. -/
theorem hashPassword_deterministic (kdf : KDF) (p q : String) (hpq : p = q) :
    hashPassword kdf p = hashPassword kdf q ∧
    hashPassword kdf p = hexOfBytes (kdf p "salt" 100000 64 "sha256") ∧
    ((kdf p "salt" 100000 64 "sha256").length = 64 →
      (hashPassword kdf p).length = 128) := by
  subst hpq
  refine ⟨rfl, rfl, fun h => ?_⟩
  rw [hashPassword, hexOfBytes_length, h]

/-- Witness for C6 at the concrete primitive `kdfLen` and password
`"adminpassword"`. -/
theorem hashPassword_deterministic_witness :
    hashPassword kdfLen "adminpassword" = hashPassword kdfLen "adminpassword" ∧
    (hashPassword kdfLen "adminpassword").length = 128 :=
  ⟨(hashPassword_deterministic kdfLen "adminpassword" "adminpassword" rfl).1,
   (hashPassword_deterministic kdfLen "adminpassword" "adminpassword" rfl).2.2
     (by simp [kdfLen])⟩

/-- C7: an absent user context during route preparation short-circuits
the protected view with a redirect to the public landing route `/`
(status 301); a `"Not authenticated"` failure raised while resolving
the current user renders the login form instead of an error page; a
present user context renders the protected view. -/
theorem authed_guard_gating :
    renderAuthed none = .redirected "/" 301 ∧
    renderAuthed none ≠ .protectedView ∧
    (∀ u : SessionUser, renderAuthed (some u) = .protectedView) ∧
    authedErrorComponent "Not authenticated" = .loginForm ∧
    (∀ m : String, m ≠ "Not authenticated" → authedErrorComponent m = .rethrown m) := by
  refine ⟨rfl, by decide, fun u => rfl, rfl, fun m hm => ?_⟩
  simp [authedErrorComponent, hm]

/-- Witness for C7 at a concrete user context and a concrete
non-authentication error. -/
theorem authed_guard_gating_witness :
    renderAuthed (some ⟨"admin@example.com", "admin", 1⟩) = .protectedView ∧
    authedErrorComponent "boom" = .rethrown "boom" :=
  ⟨authed_guard_gating.2.2.1 ⟨"admin@example.com", "admin", 1⟩,
   authed_guard_gating.2.2.2.2 "boom" (by decide)⟩

/-- Counterexample to C1: a login call with correct credentials (the
stored digest equals the hash of the provided password) through the
legacy `loginFn` throws `redirect("/home", 301)` instead of returning
`{error: false, message: "Logged in"}`. -/
theorem login_success_legacy_redirect_cex :
    seededUser.password = hashPassword kdfLen "adminpassword" ∧
    (loginFn3 kdfLen seededState "admin@example.com" "adminpassword").1 =
      .redirect "/home" 301 ∧
    (loginFn3 kdfLen seededState "admin@example.com" "adminpassword").1 ≠
      .ret false (some false) "Logged in" ∧
    (loginFn3 kdfLen seededState "admin@example.com" "adminpassword").1 ≠
      .ret false none "Logged in" := by
  refine ⟨rfl, ?_, ?_, ?_⟩ <;> decide

/-- C1 (amended): for a login call with correct credentials the legacy
variant always writes exactly `{email, role, id}` of the stored user
into the session store and throws `redirect("/home", 301)`; the current
variant performs the same session write and returns
`{error: false, userNotFound: false, message: "Logged in"}` when the
input passes the signin schema (a schema-invalid input is instead
rejected by the validator before the handler runs).  The user store is
unchanged in both. -/
theorem login_correct_credentials (emailOk : String → Bool) (kdf : KDF)
    (st : AppState) (email password : String) (u : User)
    (hfind : findByEmail st.users email = some u)
    (hpw : u.password = hashPassword kdf password) :
    (signinIssues emailOk email password = [] →
      loginFn emailOk kdf st email password =
        (.ret ⟨false, false, "Logged in"⟩,
          { st with session := some ⟨u.email, u.role, u.id⟩ })) ∧
    loginFn3 kdf st email password =
      (.redirect "/home" 301,
        { st with session := some ⟨u.email, u.role, u.id⟩ }) := by
  constructor
  · intro hval
    have hh : loginHandler kdf st email password =
        (⟨false, false, "Logged in"⟩,
          { st with session := some ⟨u.email, u.role, u.id⟩ }) := by
      simp [loginHandler, hfind, hpw]
    simp [loginFn, hval, hh]
  · simp [loginFn3, hfind, hpw]

/-- Witness for C1 (amended) on the seeded store with the seeded
credentials, which pass the signin schema. -/
theorem login_correct_credentials_witness :
    loginFn emailAny kdfLen seededState "admin@example.com" "adminpassword" =
      (.ret ⟨false, false, "Logged in"⟩,
        { seededState with
            session := some ⟨seededUser.email, seededUser.role, seededUser.id⟩ }) :=
  (login_correct_credentials emailAny kdfLen seededState "admin@example.com"
    "adminpassword" seededUser (by decide) rfl).1 (by decide)

/-- Counterexample to C2: a login call whose email is stored and whose
password hashes to a different digest, but whose password `"wrong"` has
length 5: the signin schema rejects it, so the current variant throws a
validation error and never returns the incorrect-password result. -/
theorem login_incorrect_password_invalid_schema_cex :
    seededUser.password ≠ hashPassword kdfLen "wrong" ∧
    loginFn emailAny kdfLen seededState "admin@example.com" "wrong" =
      (.invalid [⟨"too_small", ["password"],
        "String must contain at least 6 character(s)"⟩], seededState) ∧
    (loginFn emailAny kdfLen seededState "admin@example.com" "wrong").1 ≠
      .ret ⟨true, true, "Incorrect password"⟩ := by
  refine ⟨by decide, by decide, by decide⟩

/-- C2 (amended): for a login call whose email is stored but whose
provided password hashes to a digest different from the stored one, the
legacy variant always returns `{error: true, message: "Incorrect
password"}`; the current variant returns the same message (additionally
tagged `userNotFound: true`) when the input passes the signin schema,
and a schema-invalid input is instead rejected by the validator.  Both
stores are untouched. -/
theorem login_incorrect_password (emailOk : String → Bool) (kdf : KDF)
    (st : AppState) (email password : String) (u : User)
    (hfind : findByEmail st.users email = some u)
    (hpw : u.password ≠ hashPassword kdf password) :
    (signinIssues emailOk email password = [] →
      loginFn emailOk kdf st email password =
        (.ret ⟨true, true, "Incorrect password"⟩, st)) ∧
    loginFn3 kdf st email password = (.ret true none "Incorrect password", st) := by
  constructor
  · intro hval
    have hh : loginHandler kdf st email password =
        (⟨true, true, "Incorrect password"⟩, st) := by
      simp [loginHandler, hfind, hpw]
    simp [loginFn, hval, hh]
  · simp [loginFn3, hfind, hpw]

/-- Witness for C2 (amended): the seeded user with the schema-valid
wrong password `"wrongpw"`. -/
theorem login_incorrect_password_witness :
    loginFn emailAny kdfLen seededState "admin@example.com" "wrongpw" =
      (.ret ⟨true, true, "Incorrect password"⟩, seededState) :=
  (login_incorrect_password emailAny kdfLen seededState "admin@example.com"
    "wrongpw" seededUser (by decide) (by decide)).1 (by decide)

/-- Counterexample to C4: a login call whose email is absent from the
(empty) user store but whose password `"abc"` has length 3: the signin
schema rejects it, so the current variant throws a validation error and
never returns the user-not-found result. -/
theorem login_user_not_found_invalid_schema_cex :
    findByEmail ([] : List User) "ghost@example.com" = none ∧
    loginFn emailAny kdfLen ⟨[], none⟩ "ghost@example.com" "abc" =
      (.invalid [⟨"too_small", ["password"],
        "String must contain at least 6 character(s)"⟩], ⟨[], none⟩) ∧
    (loginFn emailAny kdfLen ⟨[], none⟩ "ghost@example.com" "abc").1 ≠
      .ret ⟨true, true, "User not found"⟩ := by
  refine ⟨by decide, by decide, by decide⟩

/-- C4 (amended): for a login call whose email is absent from the user
store, the legacy variant always returns `{error: true, userNotFound:
true, message: "User not found"}`; the current variant returns the
same result when the input passes the signin schema, and a
schema-invalid input is instead rejected by the validator.  Both
stores are untouched. -/
theorem login_user_not_found (emailOk : String → Bool) (kdf : KDF)
    (st : AppState) (email password : String)
    (hfind : findByEmail st.users email = none) :
    (signinIssues emailOk email password = [] →
      loginFn emailOk kdf st email password =
        (.ret ⟨true, true, "User not found"⟩, st)) ∧
    loginFn3 kdf st email password = (.ret true (some true) "User not found", st) := by
  constructor
  · intro hval
    have hh : loginHandler kdf st email password =
        (⟨true, true, "User not found"⟩, st) := by
      simp [loginHandler, hfind]
    simp [loginFn, hval, hh]
  · simp [loginFn3, hfind]

/-- Witness for C4 (amended): a schema-valid login for an email missing
from the seeded store. -/
theorem login_user_not_found_witness :
    loginFn emailAny kdfLen seededState "nobody@example.com" "adminpassword" =
      (.ret ⟨true, true, "User not found"⟩, seededState) :=
  (login_user_not_found emailAny kdfLen seededState "nobody@example.com"
    "adminpassword" (by decide)).1 (by decide)

/-- Counterexample to C3: a signup call whose email is already stored
but whose payload is schema-invalid (password `"abcde"` of length 5,
empty names): the current variant throws a validation error from the
validator and never returns the user-exists result. -/
theorem signup_existing_email_invalid_payload_cex :
    findByEmail seededState.users "admin@example.com" = some seededUser ∧
    signupIssues emailAny ⟨"admin@example.com", "abcde", "", "", none⟩ ≠ [] ∧
    signupFn emailAny kdfLen 2 seededState
        ⟨"admin@example.com", "abcde", "", "", none⟩ =
      (.invalid (signupIssues emailAny ⟨"admin@example.com", "abcde", "", "", none⟩),
        seededState) ∧
    (signupFn emailAny kdfLen 2 seededState
        ⟨"admin@example.com", "abcde", "", "", none⟩).1 ≠
      .ret ⟨true, some true, "User already exists", none⟩ := by
  refine ⟨by decide, by decide, by decide, by decide⟩

/-- C3 (amended): for a signup call whose email is already stored, the
legacy variant returns `{error: true, userExists: true, message: "User
already exists"}` with no side effects for every payload (its lookup
runs before validation); the current variant returns the same result
when the payload passes the signup schema, and a schema-invalid
payload is instead rejected by the validator before the lookup.
Neither case writes the session or creates a user. -/
theorem signup_existing_email (emailOk : String → Bool) (kdf : KDF)
    (newId : Nat) (st : AppState) (p : SignupPayload) (w : User)
    (hfind : findByEmail st.users p.email = some w) :
    (signupIssues emailOk p = [] →
      signupFn emailOk kdf newId st p =
        (.ret ⟨true, some true, "User already exists", none⟩, st)) ∧
    signupFn3 emailOk kdf newId st p =
      (.ret ⟨true, some true, "User already exists", none⟩, st) := by
  constructor
  · intro hval
    have hh : signupHandler kdf newId st p.email p.password p.first_name p.last_name =
        (⟨true, some true, "User already exists", none⟩, st) := by
      simp [signupHandler, hfind]
    simp [signupFn, hval, hh]
  · simp [signupFn3, hfind]

/-- Witness for C3 (amended): signing up again with the seeded email
and a schema-valid payload. -/
theorem signup_existing_email_witness :
    signupFn emailAny kdfLen 2 seededState
      ⟨"admin@example.com", "newpassword", "New", "Name", none⟩ =
      (.ret ⟨true, some true, "User already exists", none⟩, seededState) :=
  (signup_existing_email emailAny kdfLen 2 seededState
    ⟨"admin@example.com", "newpassword", "New", "Name", none⟩ seededUser
    (by decide)).1 (by decide)

/-- A non-empty string has length at least one. -/
theorem one_le_length_of_ne_empty (s : String) (h : s ≠ "") : 1 ≤ s.length := by
  cases s with
  | mk cs =>
    cases cs with
    | nil => exact absurd rfl h
    | cons c t => simp [String.length]

/-- Counterexample to C5, both variants: in the legacy `signupFn` the
duplicate-email lookup runs before validation, so a payload failing
validation (password `"abcde"` of length 5, empty names) whose email is
already stored is answered with the user-exists result, not the
invalid-input result - validation was not performed first; and in the
current `signupFn` a validation failure is a thrown schema validation
error from the validator, not the returned structured invalid-input
result the claim asserts. -/
theorem signup_validation_order_cex :
    signupIssues emailAny ⟨"admin@example.com", "abcde", "", "", none⟩ ≠ [] ∧
    signupFn3 emailAny kdfLen 2 seededState
        ⟨"admin@example.com", "abcde", "", "", none⟩ =
      (.ret ⟨true, some true, "User already exists", none⟩, seededState) ∧
    (signupFn3 emailAny kdfLen 2 seededState
        ⟨"admin@example.com", "abcde", "", "", none⟩).1 ≠
      .ret ⟨true, none, "Invalid input",
        some (signupIssues emailAny ⟨"admin@example.com", "abcde", "", "", none⟩)⟩ ∧
    signupIssues emailAny ⟨"a@b.com", "abcde", "F", "L", none⟩ ≠ [] ∧
    signupFn emailAny kdfLen 1 ⟨[], none⟩ ⟨"a@b.com", "abcde", "F", "L", none⟩ =
      (.invalid (signupIssues emailAny ⟨"a@b.com", "abcde", "F", "L", none⟩),
        ⟨[], none⟩) ∧
    (signupFn emailAny kdfLen 1 ⟨[], none⟩
        ⟨"a@b.com", "abcde", "F", "L", none⟩).1 ≠
      .ret ⟨true, none, "Invalid input",
        some (signupIssues emailAny ⟨"a@b.com", "abcde", "F", "L", none⟩)⟩ := by
  refine ⟨by decide, by decide, by decide, by decide, by decide, by decide⟩

/-- C5 (amended): in the current variant validation is performed first -
before the user-store lookup, with no side effects - but a validation
failure is a thrown schema validation error, not a returned structured
result; in the legacy variant the duplicate-email lookup is performed
first and validation second, and when the email is absent a validation
failure returns the structured invalid-input result enumerating the
issues without throwing and with no side effects.  Validation rejects
the length-5 password `"abcde"` and accepts the length-6 `"abcdef"`
given a well-formed email and non-empty names. -/
theorem signup_validation :
    (∀ (emailOk : String → Bool) (kdf : KDF) (newId : Nat) (st : AppState)
        (p : SignupPayload),
      signupIssues emailOk p ≠ [] →
      signupFn emailOk kdf newId st p =
        (.invalid (signupIssues emailOk p), st)) ∧
    (∀ (emailOk : String → Bool) (kdf : KDF) (newId : Nat) (st : AppState)
        (p : SignupPayload),
      findByEmail st.users p.email = none →
      signupIssues emailOk p ≠ [] →
      signupFn3 emailOk kdf newId st p =
        (.ret ⟨true, none, "Invalid input", some (signupIssues emailOk p)⟩, st)) ∧
    (∀ (emailOk : String → Bool) (e nameF nameL : String) (r : Option String),
      emailOk e = true → nameF ≠ "" → nameL ≠ "" →
      signupIssues emailOk ⟨e, "abcde", nameF, nameL, r⟩ ≠ [] ∧
      signupIssues emailOk ⟨e, "abcdef", nameF, nameL, r⟩ = []) := by
  refine ⟨?_, ?_, ?_⟩
  · intro emailOk kdf newId st p hiss
    simp only [signupFn]
    rw [if_neg (by simpa [List.isEmpty_iff] using hiss)]
  · intro emailOk kdf newId st p hfind hiss
    simp only [signupFn3, hfind]
    rw [if_neg (by simpa [List.isEmpty_iff] using hiss)]
  · intro emailOk e nameF nameL r hok hf hl
    have h5 : ¬ 6 ≤ ("abcde" : String).length := by decide
    have h6 : 6 ≤ ("abcdef" : String).length := by decide
    constructor
    · simp [signupIssues, hok, h5]
    · simp [signupIssues, hok, h6, one_le_length_of_ne_empty nameF hf,
        one_le_length_of_ne_empty nameL hl]

/-- Witness for C5 (amended): the invalid payload with password
`"abcde"` through both variants (current: thrown validation error on a
seeded store; legacy: returned invalid-input result on a fresh store),
and the boundary passwords. -/
theorem signup_validation_witness :
    signupFn emailAny kdfLen 2 seededState ⟨"x@y.com", "abcde", "F", "L", none⟩ =
      (.invalid (signupIssues emailAny ⟨"x@y.com", "abcde", "F", "L", none⟩),
        seededState) ∧
    signupFn3 emailAny kdfLen 1 ⟨[], none⟩ ⟨"x@y.com", "abcde", "F", "L", none⟩ =
      (.ret ⟨true, none, "Invalid input",
        some (signupIssues emailAny ⟨"x@y.com", "abcde", "F", "L", none⟩)⟩,
       ⟨[], none⟩) ∧
    signupIssues emailAny ⟨"x@y.com", "abcde", "F", "L", none⟩ ≠ [] ∧
    signupIssues emailAny ⟨"x@y.com", "abcdef", "F", "L", none⟩ = [] :=
  ⟨signup_validation.1 emailAny kdfLen 2 seededState
      ⟨"x@y.com", "abcde", "F", "L", none⟩ (by decide),
   signup_validation.2.1 emailAny kdfLen 1 ⟨[], none⟩
      ⟨"x@y.com", "abcde", "F", "L", none⟩ rfl (by decide),
   (signup_validation.2.2 emailAny "x@y.com" "F" "L" none rfl (by decide)
      (by decide)).1,
   (signup_validation.2.2 emailAny "x@y.com" "F" "L" none rfl (by decide)
      (by decide)).2⟩

/-- C8: when the session store carries no email (cleared session, or
session data with an empty email), the strict accessor `getCurrentUser`
fails hard with `"Not authenticated"` while the probe
`fetchSessionUser` returns null without failing. -/
theorem session_accessors_cleared (users : List User)
    (s : Option SessionUser)
    (h : s = none ∨ ∃ sd, s = some sd ∧ sd.email = "") :
    getCurrentUser ⟨users, s⟩ = .threw "Not authenticated" ∧
    fetchSessionUser s = none := by
  rcases h with h | ⟨sd, rfl, hsd⟩
  · subst h
    exact ⟨rfl, rfl⟩
  · constructor <;> simp [getCurrentUser, fetchSessionUser, hsd]

/-- Witness for C8 on a cleared session over the seeded store. -/
theorem session_accessors_cleared_witness :
    getCurrentUser ⟨[seededUser], none⟩ = .threw "Not authenticated" ∧
    fetchSessionUser none = none :=
  session_accessors_cleared [seededUser] none (Or.inl rfl)

/-- C9: when the session email matches a stored user, `getCurrentUser`
returns exactly the projection `{id, email, role, first_name,
last_name}` of that row; the projection is insensitive to the stored
password digest, so the digest is never part of the returned value. -/
theorem getCurrentUser_projection (users : List User) (sd : SessionUser)
    (u : User) (hne : sd.email ≠ "")
    (hfind : findByEmail users sd.email = some u) :
    getCurrentUser ⟨users, some sd⟩ = .ok (some (projectUser u)) ∧
    projectUser u = ⟨u.id, u.email, u.role, u.first_name, u.last_name⟩ ∧
    (∀ v : User, v.id = u.id → v.email = u.email → v.role = u.role →
      v.first_name = u.first_name → v.last_name = u.last_name →
      projectUser v = projectUser u) := by
  refine ⟨?_, rfl, ?_⟩
  · simp [getCurrentUser, hne, hfind]
  · intro v h1 h2 h3 h4 h5
    simp [projectUser, h1, h2, h3, h4, h5]

/-- Witness for C9 on the seeded store with a matching session; the
second conjunct instantiates password-insensitivity at a row that
differs from the stored one only in its digest. -/
theorem getCurrentUser_projection_witness :
    getCurrentUser ⟨[seededUser], some ⟨"admin@example.com", "admin", 1⟩⟩ =
      .ok (some (projectUser seededUser)) ∧
    projectUser ⟨seededUser.id, seededUser.email, "other-digest",
        seededUser.role, seededUser.first_name, seededUser.last_name⟩ =
      projectUser seededUser :=
  ⟨(getCurrentUser_projection [seededUser] ⟨"admin@example.com", "admin", 1⟩
      seededUser (by decide) (by decide)).1,
   (getCurrentUser_projection [seededUser] ⟨"admin@example.com", "admin", 1⟩
      seededUser (by decide) (by decide)).2.2
      ⟨seededUser.id, seededUser.email, "other-digest", seededUser.role,
        seededUser.first_name, seededUser.last_name⟩ rfl rfl rfl rfl rfl⟩

/-- C10: a stale session - a non-empty session email matching no stored
user - makes `getCurrentUser` return null: not a user value and not the
`"Not authenticated"` failure, a third outcome of the accessor. -/
theorem getCurrentUser_stale_session (users : List User) (sd : SessionUser)
    (hne : sd.email ≠ "")
    (hfind : findByEmail users sd.email = none) :
    getCurrentUser ⟨users, some sd⟩ = .ok none ∧
    getCurrentUser ⟨users, some sd⟩ ≠ .threw "Not authenticated" ∧
    (∀ p : UserProjection, getCurrentUser ⟨users, some sd⟩ ≠ .ok (some p)) := by
  have h : getCurrentUser ⟨users, some sd⟩ = .ok none := by
    simp [getCurrentUser, hne, hfind]
  refine ⟨h, by simp [h], fun p => by simp [h]⟩

/-- Witness for C10: a session email that no stored user carries. -/
theorem getCurrentUser_stale_session_witness :
    getCurrentUser ⟨[seededUser], some ⟨"ghost@example.com", "user", 9⟩⟩ =
      .ok none :=
  (getCurrentUser_stale_session [seededUser] ⟨"ghost@example.com", "user", 9⟩
    (by decide) (by decide)).1

end TanstackAuth
